import Mathlib

/-!
Shallow embedding of `src/js/main.js` (Exodus landing page script):
configuration constants, the random helpers, the Navigation module,
the WordRotation module (with an explicit model of the host's interval
and one-shot timers), the HeroImage module, the preload helper and the
`initApp` bootstrap, together with theorems settling the spec claims.
-/

namespace Exodus

/-! ## CONFIG (src/js/main.js lines 10-31) -/

def WORD_ROTATION_INTERVAL : Nat := 3000

def WORD_FADE_DURATION : Nat := 300

def HERO_WORDS : List String :=
  ["WhatsApp Bot", "Telegram Bot", "Discord Bot", "Game Server", "AI Agent",
   "Cron Job", "Database", "Web App/API", "Webhook Receiver", "Automation Script"]

def HERO_IMAGES : List String :=
  ["images/hero-1.png", "images/hero-2.png", "images/hero-3.png", "images/hero-4.png"]

/-! ## Utility functions (src/js/main.js lines 42-49)

`Math.random()` is modelled as an explicitly supplied rational `rand`
with `0 ≤ rand < 1`; `Math.floor` is `Int.floor`. -/

/-- `const getRandomInt = (max) => Math.floor(Math.random() * max)`. -/
def getRandomInt (rand : ℚ) (max : Nat) : ℤ :=
  Int.floor (rand * (max : ℚ))

/-- `const getRandomItem = (array) => array[getRandomInt(array.length)]`.
An out-of-bounds read yields `undefined`, modelled as `none`. -/
def getRandomItem {α : Type} (rand : ℚ) (array : List α) : Option α :=
  array.get? (getRandomInt rand array.length).toNat

/-! ## Navigation module (src/js/main.js lines 76-123)

A DOM element is modelled by the pieces of state this script touches:
its class list and its `aria-expanded` attribute (the only attribute
the script ever writes). An absent element is `none`. -/

structure Elem where
  classes : List String
  ariaExpanded : Option String
deriving DecidableEq, Repr

/-- `element.classList.toggle(c, force)`: adds class `c` when `force`
is true (keeping it if already present), removes it when false. -/
def classListToggle (cs : List String) (c : String) (force : Bool) : List String :=
  if force then (if c ∈ cs then cs else cs ++ [c]) else cs.filter (fun x => x ≠ c)

/-- State of the Navigation closure together with the DOM it touches:
`isMenuOpen` (line 77), the `#sideMenu` and `#navCta` elements, and a
flag recording that `init` bound its click listeners (lines 114-120). -/
structure NavWorld where
  isMenuOpen : Bool
  sideMenu : Option Elem
  navCta : Option Elem
  listenersBound : Bool
deriving DecidableEq, Repr

/-- `toggleMenu` (lines 82-92): guard on both elements, then flip
`isMenuOpen`, toggle the `active` class on both elements with the new
value as the force argument, and set `aria-expanded` to its string. -/
def toggleMenu (w : NavWorld) : NavWorld :=
  match w.sideMenu, w.navCta with
  | some sideMenu, some navCta =>
      let isOpen := !w.isMenuOpen
      { isMenuOpen := isOpen
        sideMenu := some { sideMenu with
          classes := classListToggle sideMenu.classes "active" isOpen }
        navCta := some { navCta with
          classes := classListToggle navCta.classes "active" isOpen
          ariaExpanded := some (toString isOpen) }
        listenersBound := w.listenersBound }
  | _, _ => w

/-- `Navigation.init` (lines 114-120): if `#navCta` is absent do
nothing, otherwise bind the click handlers (modelled as a flag). -/
def navigationInit (w : NavWorld) : NavWorld :=
  match w.navCta with
  | none => w
  | some _ => { w with listenersBound := true }

/-! ## WordRotation module (src/js/main.js lines 129-185)

The host's timer machinery is modelled explicitly: `setInterval`
returns a fresh positive handle and records it active; `clearInterval`
removes a handle. The one-shot `setTimeout` callbacks queued by
`updateWord` are modelled as a FIFO of pending text writes, fired by
`fireFade`. The word list is a parameter `words`, instantiated with
`CONFIG.HERO_WORDS` in the concrete scenarios. -/

structure TimerSys where
  nextId : Nat
  activeIntervals : List Nat
deriving DecidableEq, Repr

/-- Browser timer handles are positive integers, so the first fresh id is 1
(this keeps the source's `if (intervalId)` truthiness test equivalent to an
`Option` match). -/
def TimerSys.initial : TimerSys := { nextId := 1, activeIntervals := [] }

/-- `setInterval(cb, ms)`: returns a fresh handle and marks it active. -/
def setIntervalT (t : TimerSys) : Nat × TimerSys :=
  (t.nextId, { nextId := t.nextId + 1, activeIntervals := t.nextId :: t.activeIntervals })

/-- `clearInterval(id)`: deactivates the handle. -/
def clearIntervalT (t : TimerSys) (id : Nat) : TimerSys :=
  { t with activeIntervals := t.activeIntervals.filter (fun x => x ≠ id) }

/-- The `#rotatingWord` element: the pieces of DOM state the module
touches (text content, inline opacity and transition styles). -/
structure RotElem where
  textContent : String
  opacity : String
  transition : String
deriving DecidableEq, Repr

/-- State of the WordRotation closure (`currentIndex`, `intervalId`,
lines 130-131) together with the host state it interacts with: the
timer system, the `#rotatingWord` element (or `none`), and the queue
of one-shot fade callbacks scheduled by `updateWord`. -/
structure WRWorld where
  currentIndex : Nat
  intervalId : Option Nat
  timers : TimerSys
  elem : Option RotElem
  pendingFades : List String
deriving DecidableEq, Repr

/-- `updateWord` (lines 138-145): set the element's opacity to "0" now
and schedule a one-shot `setTimeout` that will write `newWord` into the
text content and restore opacity "1" after `WORD_FADE_DURATION` ms. -/
def updateWord (w : WRWorld) (newWord : String) : WRWorld :=
  { w with
      elem := w.elem.map (fun e => { e with opacity := "0" })
      pendingFades := w.pendingFades ++ [newWord] }

/-- The index update of `rotateNext` (line 152):
`currentIndex = (currentIndex + 1) % CONFIG.HERO_WORDS.length`. -/
def rotateNextIdx (words : List String) (i : Nat) : Nat :=
  (i + 1) % words.length

/-- The word `rotateNext` (line 153) passes to `updateWord`:
`CONFIG.HERO_WORDS[currentIndex]` after the index update. -/
def rotateNextWord (words : List String) (i : Nat) : String :=
  words.getD (rotateNextIdx words i) ""

/-- `rotateNext` (lines 151-154) acting on the whole world: advance the
index, then hand the word at the new index to `updateWord`. -/
def rotateNext (words : List String) (w : WRWorld) : WRWorld :=
  let j := rotateNextIdx words w.currentIndex
  updateWord { w with currentIndex := j } (words.getD j "")

/-- The body of the recurring interval callback registered by `start`
(lines 169-171) is exactly `rotateNext` on the captured element. -/
def fireInterval (words : List String) (w : WRWorld) : WRWorld :=
  rotateNext words w

/-- Firing the oldest pending one-shot fade callback (lines 141-144):
write the queued word into the text content and restore opacity "1". -/
def fireFade (w : WRWorld) : WRWorld :=
  match w.pendingFades with
  | [] => w
  | word :: rest =>
      { w with
          pendingFades := rest
          elem := w.elem.map (fun e => { e with textContent := word, opacity := "1" }) }

/-- `WordRotation.start` (lines 159-172): if `#rotatingWord` is absent,
return silently; otherwise pick a random starting index, write that
word immediately, set the transition style, and register the recurring
interval, storing its handle in `intervalId`. -/
def wordRotationStart (words : List String) (rand : ℚ) (w : WRWorld) : WRWorld :=
  match w.elem with
  | none => w
  | some e =>
      let i := (getRandomInt rand words.length).toNat
      let e' : RotElem :=
        { e with
            textContent := words.getD i ""
            transition := "opacity " ++ toString WORD_FADE_DURATION ++ "ms ease" }
      let idt := setIntervalT w.timers
      { w with currentIndex := i, elem := some e', intervalId := some idt.1, timers := idt.2 }

/-- `WordRotation.stop` (lines 177-182): if a handle is stored, cancel
the recurring interval and clear the handle; otherwise do nothing. -/
def wordRotationStop (w : WRWorld) : WRWorld :=
  match w.intervalId with
  | some id => { w with intervalId := none, timers := clearIntervalT w.timers id }
  | none => w

/-- The index after `k` firings of the recurring callback, starting
from cursor `init` (iterating line 152). -/
def indexAfter (words : List String) (init : Nat) : Nat → Nat
  | 0 => init
  | k + 1 => rotateNextIdx words (indexAfter words init k)

/-- A fresh page's WordRotation world: cursor 0, no timer, the
`#rotatingWord` element present with its static content. -/
def wrInit : WRWorld :=
  { currentIndex := 0
    intervalId := none
    timers := TimerSys.initial
    elem := some { textContent := "", opacity := "", transition := "" }
    pendingFades := [] }

/-! ## HeroImage module, preload and bootstrap (src/js/main.js lines 191-250) -/

/-- The `#heroImg` element: the script only writes its `src`. -/
structure HeroElem where
  src : String
deriving DecidableEq, Repr

/-- The whole application's world: the three modules' state plus the
list of image paths for which a preloading `Image` was constructed. -/
structure AppWorld where
  nav : NavWorld
  wr : WRWorld
  heroImg : Option HeroElem
  preloaded : List String
deriving DecidableEq, Repr

/-- `HeroImage.init` / `setRandomImage` (lines 195-207): if `#heroImg`
is absent do nothing, otherwise assign `getRandomItem(CONFIG.HERO_IMAGES)`
to its `src` (an out-of-range pick would assign the string form of
`undefined`). -/
def heroImageInit (rand : ℚ) (w : AppWorld) : AppWorld :=
  match w.heroImg with
  | none => w
  | some _ => { w with heroImg := some { src := (getRandomItem rand HERO_IMAGES).getD "undefined" } }

/-- `preloadImages` (lines 220-225): construct a detached image for
every configured path, recorded here as the list of requested paths. -/
def preloadImages (w : AppWorld) : AppWorld :=
  { w with preloaded := w.preloaded ++ HERO_IMAGES }

/-- `Navigation.init` lifted to the application world. -/
def navigationInitApp (w : AppWorld) : AppWorld :=
  { w with nav := navigationInit w.nav }

/-- `WordRotation.start` lifted to the application world. -/
def wordRotationStartApp (words : List String) (rand : ℚ) (w : AppWorld) : AppWorld :=
  { w with wr := wordRotationStart words rand w.wr }

/-- The `try { a(); b(); c(); d(); } catch (e) { log(e) }` block of
`initApp` (lines 234-243), over arbitrary fallible steps: a step either
returns the next world or throws, carrying the exception together with
the world as mutated up to the throw point. The catch handler returns
that world and the logged exception; nothing propagates. -/
def tryCatchSeq {W E : Type} (s1 s2 s3 s4 : W → Except (E × W) W) (w : W) : W × Option E :=
  match s1 w with
  | .error ew => (ew.2, some ew.1)
  | .ok w1 =>
      match s2 w1 with
      | .error ew => (ew.2, some ew.1)
      | .ok w2 =>
          match s3 w2 with
          | .error ew => (ew.2, some ew.1)
          | .ok w3 =>
              match s4 w3 with
              | .error ew => (ew.2, some ew.1)
              | .ok w4 => (w4, none)

/-- Lift a total step into the fallible-step type. -/
def liftStep {W E : Type} (f : W → W) : W → Except (E × W) W :=
  fun w => .ok (f w)

/-- `initApp` (lines 234-243): Navigation.init, WordRotation.start,
HeroImage.init, preloadImages, in that order, inside the single
try/catch. The second component is the logged exception, if any. -/
def initApp (words : List String) (rw ri : ℚ) (w : AppWorld) : AppWorld × Option String :=
  tryCatchSeq (E := String)
    (liftStep navigationInitApp)
    (liftStep (wordRotationStartApp words rw))
    (liftStep (heroImageInit ri))
    (liftStep preloadImages) w

/-! ## Helper lemmas -/

theorem stop_intervalId_none (w : WRWorld) : (wordRotationStop w).intervalId = none := by
  cases h : w.intervalId <;> simp [wordRotationStop, h]

theorem stop_elem_eq (w : WRWorld) : (wordRotationStop w).elem = w.elem := by
  cases h : w.intervalId <;> simp [wordRotationStop, h]

theorem stop_pendingFades_eq (w : WRWorld) :
    (wordRotationStop w).pendingFades = w.pendingFades := by
  cases h : w.intervalId <;> simp [wordRotationStop, h]

theorem stop_currentIndex_eq (w : WRWorld) :
    (wordRotationStop w).currentIndex = w.currentIndex := by
  cases h : w.intervalId <;> simp [wordRotationStop, h]

/-- Unfolding `wordRotationStart` when the element is present. -/
theorem start_some (words : List String) (r : ℚ) (w : WRWorld) (e : RotElem)
    (he : w.elem = some e) :
    wordRotationStart words r w =
      { currentIndex := (getRandomInt r words.length).toNat
        intervalId := some w.timers.nextId
        timers := { nextId := w.timers.nextId + 1
                    activeIntervals := w.timers.nextId :: w.timers.activeIntervals }
        elem := some { textContent := words.getD (getRandomInt r words.length).toNat ""
                       opacity := e.opacity
                       transition := "opacity " ++ toString WORD_FADE_DURATION ++ "ms ease" }
        pendingFades := w.pendingFades } := by
  unfold wordRotationStart setIntervalT
  rw [he]

/-- With random value 0, `getRandomInt` picks index 0. -/
theorem getRandomInt_zero (n : Nat) : getRandomInt 0 n = 0 := by
  simp [getRandomInt]

/-- Evaluation of `WordRotation.start` with random value 0 on the fresh
page world. -/
theorem start_zero_wrInit :
    wordRotationStart HERO_WORDS 0 wrInit =
      { currentIndex := 0, intervalId := some 1,
        timers := { nextId := 2, activeIntervals := [1] },
        elem := some { textContent := "WhatsApp Bot", opacity := "",
                       transition := "opacity 300ms ease" },
        pendingFades := [] } := by
  have h : (getRandomInt 0 HERO_WORDS.length).toNat = 0 := by
    rw [getRandomInt_zero]; rfl
  rw [start_some HERO_WORDS 0 wrInit { textContent := "", opacity := "", transition := "" } rfl, h]
  decide

/-! ## Claim theorems -/

/-- C6: if the `#rotatingWord` element is absent when `WordRotation.start`
is called, `start` is a total function (no exception) that changes nothing:
no timer is created, no module or DOM state changes, and if the module was
stopped it remains stopped. -/
theorem start_absent_element_noop (words : List String) (rand : ℚ) (w : WRWorld)
    (h : w.elem = none) :
    wordRotationStart words rand w = w ∧
    (w.intervalId = none → (wordRotationStart words rand w).intervalId = none) := by
  have heq : wordRotationStart words rand w = w := by
    unfold wordRotationStart
    rw [h]
  exact ⟨heq, fun h2 => by rw [heq]; exact h2⟩

/-- Witness for C6 at a concrete stopped world without the element. -/
theorem start_absent_element_noop_witness :
    wordRotationStart HERO_WORDS 0 { wrInit with elem := none } = { wrInit with elem := none } ∧
    (({ wrInit with elem := none } : WRWorld).intervalId = none →
      (wordRotationStart HERO_WORDS 0 { wrInit with elem := none }).intervalId = none) :=
  start_absent_element_noop HERO_WORDS 0 { wrInit with elem := none } rfl

/-- C7: if the `#sideMenu` container or the `#navCta` trigger is missing,
`toggleMenu` performs no state change at all: in particular `isMenuOpen`
is not flipped, since the guard returns before the mutation. -/
theorem toggleMenu_missing_element_noop (w : NavWorld)
    (h : w.sideMenu = none ∨ w.navCta = none) :
    toggleMenu w = w := by
  cases hs : w.sideMenu <;> cases hn : w.navCta <;> simp_all [toggleMenu]

/-- Witness for C7 with the side menu present but the trigger missing. -/
theorem toggleMenu_missing_element_noop_witness :
    toggleMenu { isMenuOpen := false, sideMenu := some { classes := [], ariaExpanded := none },
                 navCta := none, listenersBound := false } =
      { isMenuOpen := false, sideMenu := some { classes := [], ariaExpanded := none },
        navCta := none, listenersBound := false } :=
  toggleMenu_missing_element_noop _ (Or.inr rfl)

/-- C10: `WordRotation.stop` mutates only `intervalId` (and the host's
record of active intervals that the cancelled handle lives in): the
`currentIndex` cursor, the element, and the pending fade queue are
unchanged by every call to `stop`. -/
theorem stop_mutates_only_intervalId :
    ∀ w : WRWorld,
      (wordRotationStop w).currentIndex = w.currentIndex ∧
      (wordRotationStop w).elem = w.elem ∧
      (wordRotationStop w).pendingFades = w.pendingFades :=
  fun w => ⟨stop_currentIndex_eq w, stop_elem_eq w, stop_pendingFades_eq w⟩

/-- C8: `stop` cancels only the recurring interval and never a queued
one-shot fade callback (first conjunct, for every state); concretely, in
the trace start - interval firing - stop, the fade queued by the firing
survives the stop and still applies its text write afterwards. -/
theorem stop_keeps_pending_fade_alive :
    (∀ w : WRWorld, (wordRotationStop w).pendingFades = w.pendingFades) ∧
    (wordRotationStop (fireInterval HERO_WORDS
        (wordRotationStart HERO_WORDS 0 wrInit))).intervalId = none ∧
    (wordRotationStop (fireInterval HERO_WORDS
        (wordRotationStart HERO_WORDS 0 wrInit))).pendingFades = ["Telegram Bot"] ∧
    (fireFade (wordRotationStop (fireInterval HERO_WORDS
        (wordRotationStart HERO_WORDS 0 wrInit)))).elem =
      some { textContent := "Telegram Bot", opacity := "1",
             transition := "opacity 300ms ease" } := by
  refine ⟨stop_pendingFades_eq, ?_, ?_, ?_⟩ <;> rw [start_zero_wrInit] <;> decide

theorem indexAfter_mod (words : List String) (init : Nat) (hi : init < words.length) :
    ∀ k, indexAfter words init k = (init + k) % words.length := by
  intro k
  induction k with
  | zero => simp [indexAfter, Nat.mod_eq_of_lt hi]
  | succ k ih =>
      rw [indexAfter, ih, rotateNextIdx]
      exact (Nat.mod_modEq (init + k) words.length).add_right 1

/-- C1: for every configured word list of length N ≥ 1 and every initial
index picked at start (any index below N), after k firings of the recurring
callback the cursor equals (initial + k) mod N; the word handed to the
fade-update routine on the k-th firing (k ≥ 1) is the word at that index;
each firing advances the cursor by the rotateNext step and appends exactly
that word to the fade queue. -/
theorem rotation_after_k_firings (words : List String) (init k : Nat)
    (hi : init < words.length) (hk : 1 ≤ k) :
    indexAfter words init k = (init + k) % words.length ∧
    rotateNextWord words (indexAfter words init (k - 1)) =
      words.getD ((init + k) % words.length) "" ∧
    (∀ v : WRWorld, (fireInterval words v).currentIndex = rotateNextIdx words v.currentIndex) ∧
    (∀ v : WRWorld, (fireInterval words v).pendingFades =
      v.pendingFades ++ [rotateNextWord words v.currentIndex]) := by
  refine ⟨indexAfter_mod words init hi k, ?_, fun v => rfl, fun v => rfl⟩
  have h1 : rotateNextWord words (indexAfter words init (k - 1)) =
      words.getD (indexAfter words init ((k - 1) + 1)) "" := rfl
  rw [h1, Nat.sub_add_cancel hk, indexAfter_mod words init hi]

/-- Witness for C1 on the configured word list, initial index 7, five firings. -/
theorem rotation_after_k_firings_witness :
    indexAfter HERO_WORDS 7 5 = (7 + 5) % HERO_WORDS.length ∧
    rotateNextWord HERO_WORDS (indexAfter HERO_WORDS 7 (5 - 1)) =
      HERO_WORDS.getD ((7 + 5) % HERO_WORDS.length) "" ∧
    (∀ v : WRWorld, (fireInterval HERO_WORDS v).currentIndex =
      rotateNextIdx HERO_WORDS v.currentIndex) ∧
    (∀ v : WRWorld, (fireInterval HERO_WORDS v).pendingFades =
      v.pendingFades ++ [rotateNextWord HERO_WORDS v.currentIndex]) :=
  rotation_after_k_firings HERO_WORDS 7 5 (by decide) (by decide)

/-- C5 counterexample: 0 is a legal value of the random source, yet with
max = 0 `getRandomInt` returns 0, which is not below max (the range
[0, 0) is empty); and on the empty array `getRandomItem` returns no
element of the array. So the claim fails for max = 0 and for the empty
array. -/
theorem getRandomInt_fails_at_zero_max :
    (0 : ℚ) ≤ 0 ∧ (0 : ℚ) < 1 ∧
    getRandomInt 0 0 = 0 ∧ ¬ getRandomInt 0 0 < ((0 : Nat) : ℤ) ∧
    ¬ ∃ x, x ∈ ([] : List Nat) ∧ getRandomItem (0 : ℚ) ([] : List Nat) = some x := by
  refine ⟨le_refl 0, by norm_num, getRandomInt_zero 0, ?_, ?_⟩
  · rw [getRandomInt_zero]; decide
  · rintro ⟨x, hx, -⟩
    exact List.not_mem_nil x hx

/-- C5 (amended): for every random value in [0, 1) and every max ≥ 1,
`getRandomInt` returns an integer in [0, max); for every nonempty array,
`getRandomItem` returns an element present in the array. (The original
claim quantified over every max and every array; it fails at max = 0 and
at the empty array.) -/
theorem getRandomInt_getRandomItem_range (rand : ℚ) (h0 : 0 ≤ rand) (h1 : rand < 1) :
    (∀ max : Nat, 1 ≤ max → 0 ≤ getRandomInt rand max ∧ getRandomInt rand max < max) ∧
    (∀ (α : Type) (l : List α), l ≠ [] → ∃ x, x ∈ l ∧ getRandomItem rand l = some x) := by
  have hbounds : ∀ max : Nat, 1 ≤ max →
      0 ≤ getRandomInt rand max ∧ getRandomInt rand max < max := by
    intro max hmax
    have hmaxpos : (0 : ℚ) < (max : ℚ) := by exact_mod_cast hmax
    constructor
    · exact Int.floor_nonneg.mpr (mul_nonneg h0 (le_of_lt hmaxpos))
    · apply Int.floor_lt.mpr
      push_cast
      calc rand * (max : ℚ) < 1 * (max : ℚ) := mul_lt_mul_of_pos_right h1 hmaxpos
        _ = (max : ℚ) := one_mul _
  refine ⟨hbounds, ?_⟩
  intro α l hl
  have hlen : 1 ≤ l.length := by
    cases l with
    | nil => exact absurd rfl hl
    | cons a t => simp
  obtain ⟨hge, hlt⟩ := hbounds l.length hlen
  have hidx : (getRandomInt rand l.length).toNat < l.length := by omega
  exact ⟨l.get ⟨(getRandomInt rand l.length).toNat, hidx⟩,
    List.get_mem l _ hidx, List.get?_eq_get hidx⟩

/-- Witness for C5 at random value 1/2, max 10 and the hero image list. -/
theorem getRandomInt_getRandomItem_range_witness :
    0 ≤ getRandomInt (1/2) 10 ∧ getRandomInt (1/2) 10 < 10 ∧
    (∃ x, x ∈ HERO_IMAGES ∧ getRandomItem (1/2 : ℚ) HERO_IMAGES = some x) := by
  obtain ⟨hb, hi⟩ := getRandomInt_getRandomItem_range (1/2) (by norm_num) (by norm_num)
  obtain ⟨h1, h2⟩ := hb 10 (by norm_num)
  exact ⟨h1, h2, hi String HERO_IMAGES (by simp [HERO_IMAGES])⟩

theorem mem_classListToggle_self (cs : List String) (c : String) (f : Bool) :
    c ∈ classListToggle cs c f ↔ f = true := by
  cases f with
  | false => simp [classListToggle]
  | true => by_cases h : c ∈ cs <;> simp [classListToggle, h]

/-- Unfolding `toggleMenu` when both elements are present. -/
theorem toggleMenu_some (w : NavWorld) (sm nc : Elem)
    (hsm : w.sideMenu = some sm) (hnc : w.navCta = some nc) :
    toggleMenu w =
      { isMenuOpen := !w.isMenuOpen
        sideMenu := some { sm with
          classes := classListToggle sm.classes "active" (!w.isMenuOpen) }
        navCta := some { nc with
          classes := classListToggle nc.classes "active" (!w.isMenuOpen)
          ariaExpanded := some (toString (!w.isMenuOpen)) }
        listenersBound := w.listenersBound } := by
  unfold toggleMenu
  rw [hsm, hnc]

/-- C4 counterexample: a starting state with both elements present in
which the side menu carries the `active` class while `isMenuOpen` is
false. Two `toggleMenu` calls strip the class, so the menu's visual
state is not returned to its value before the first call. -/
theorem toggleMenu_twice_not_inverse :
    (({ isMenuOpen := false
        sideMenu := some { classes := ["active"], ariaExpanded := none }
        navCta := some { classes := [], ariaExpanded := none }
        listenersBound := false } : NavWorld).sideMenu =
      some { classes := ["active"], ariaExpanded := none }) ∧
    (toggleMenu (toggleMenu
      { isMenuOpen := false
        sideMenu := some { classes := ["active"], ariaExpanded := none }
        navCta := some { classes := [], ariaExpanded := none }
        listenersBound := false })).sideMenu =
      some { classes := [], ariaExpanded := none } := by
  constructor
  · rfl
  · decide

/-- C4 (amended): for every starting state in which both elements are
present and the visual state agrees with `isMenuOpen` (the `active`
class is on each element exactly when the menu is open, and
`aria-expanded` holds the string of `isMenuOpen` — true of every state
the page can reach from its initial markup), calling `toggleMenu` twice
returns `isMenuOpen`, the `active`-class presence on both elements, and
`aria-expanded` to their values before the first call. (The original
claim quantified over all starting states; it fails when the class or
attribute disagrees with `isMenuOpen`.) -/
theorem toggleMenu_twice_inverse (w : NavWorld) (sm nc : Elem)
    (hsm : w.sideMenu = some sm) (hnc : w.navCta = some nc)
    (h1 : "active" ∈ sm.classes ↔ w.isMenuOpen = true)
    (h2 : "active" ∈ nc.classes ↔ w.isMenuOpen = true)
    (h3 : nc.ariaExpanded = some (toString w.isMenuOpen)) :
    (toggleMenu (toggleMenu w)).isMenuOpen = w.isMenuOpen ∧
    (∃ sm' nc',
      (toggleMenu (toggleMenu w)).sideMenu = some sm' ∧
      (toggleMenu (toggleMenu w)).navCta = some nc' ∧
      ("active" ∈ sm'.classes ↔ "active" ∈ sm.classes) ∧
      ("active" ∈ nc'.classes ↔ "active" ∈ nc.classes) ∧
      nc'.ariaExpanded = nc.ariaExpanded) := by
  rw [toggleMenu_some w sm nc hsm hnc]
  rw [toggleMenu_some _ _ _ rfl rfl]
  refine ⟨by simp, _, _, rfl, rfl, ?_, ?_, ?_⟩
  · rw [mem_classListToggle_self, Bool.not_not]
    exact h1.symm
  · rw [mem_classListToggle_self, Bool.not_not]
    exact h2.symm
  · rw [Bool.not_not]
    exact h3.symm

/-- Witness for C4 at the page's initial consistent state. -/
theorem toggleMenu_twice_inverse_witness :
    (toggleMenu (toggleMenu
      { isMenuOpen := false
        sideMenu := some { classes := ["side-menu"], ariaExpanded := none }
        navCta := some { classes := ["nav-cta"], ariaExpanded := some "false" }
        listenersBound := true })).isMenuOpen = false ∧
    (∃ sm' nc',
      (toggleMenu (toggleMenu
        { isMenuOpen := false
          sideMenu := some { classes := ["side-menu"], ariaExpanded := none }
          navCta := some { classes := ["nav-cta"], ariaExpanded := some "false" }
          listenersBound := true })).sideMenu = some sm' ∧
      (toggleMenu (toggleMenu
        { isMenuOpen := false
          sideMenu := some { classes := ["side-menu"], ariaExpanded := none }
          navCta := some { classes := ["nav-cta"], ariaExpanded := some "false" }
          listenersBound := true })).navCta = some nc' ∧
      ("active" ∈ sm'.classes ↔ "active" ∈ (["side-menu"] : List String)) ∧
      ("active" ∈ nc'.classes ↔ "active" ∈ (["nav-cta"] : List String)) ∧
      nc'.ariaExpanded = some "false") :=
  toggleMenu_twice_inverse
    { isMenuOpen := false
      sideMenu := some { classes := ["side-menu"], ariaExpanded := none }
      navCta := some { classes := ["nav-cta"], ariaExpanded := some "false" }
      listenersBound := true }
    { classes := ["side-menu"], ariaExpanded := none }
    { classes := ["nav-cta"], ariaExpanded := some "false" }
    rfl rfl (by decide) (by decide) rfl

/-- If every active interval handle is the one referenced by `intervalId`,
`stop` leaves no active interval. -/
theorem stop_active_empty (w : WRWorld)
    (hinv : ∀ id ∈ w.timers.activeIntervals, w.intervalId = some id) :
    (wordRotationStop w).timers.activeIntervals = [] := by
  cases h : w.intervalId with
  | none =>
      simp only [wordRotationStop, h]
      cases hl : w.timers.activeIntervals with
      | nil => rfl
      | cons a t =>
          have := hinv a (by rw [hl]; exact List.mem_cons_self a t)
          rw [h] at this
          exact absurd this (by simp)
  | some id =>
      simp only [wordRotationStop, h, clearIntervalT]
      rw [List.filter_eq_nil_iff]
      intro a ha
      have := hinv a ha
      rw [h] at this
      simp [Option.some.inj this]

/-- `stop` is idempotent: stopping a stopped system is a no-op. -/
theorem stop_idem (v : WRWorld) :
    wordRotationStop (wordRotationStop v) = wordRotationStop v := by
  cases h : v.intervalId with
  | none =>
      have hv : wordRotationStop v = v := by simp [wordRotationStop, h]
      rw [hv, hv]
  | some id =>
      have h2 : wordRotationStop v =
          { v with intervalId := none, timers := clearIntervalT v.timers id } := by
        simp [wordRotationStop, h]
      rw [h2]
      simp [wordRotationStop]

/-- C3 counterexample: start the rotation twice without an intervening
stop (the scenario of C9), then run stop-start-stop. The final state has
`intervalId` cleared but the interval created by the first start is still
active, so the system is not left with "no active recurring timer". -/
theorem stop_start_stop_leaked_timer :
    ((wordRotationStop (wordRotationStart HERO_WORDS 0 (wordRotationStop
        (wordRotationStart HERO_WORDS 0
          (wordRotationStart HERO_WORDS 0 wrInit))))).timers.activeIntervals = [1]) ∧
    ((wordRotationStop (wordRotationStart HERO_WORDS 0 (wordRotationStop
        (wordRotationStart HERO_WORDS 0
          (wordRotationStart HERO_WORDS 0 wrInit))))).timers.activeIntervals ≠ []) ∧
    ((wordRotationStop (wordRotationStart HERO_WORDS 0 (wordRotationStop
        (wordRotationStart HERO_WORDS 0
          (wordRotationStart HERO_WORDS 0 wrInit))))).intervalId = none) := by
  have h : (getRandomInt 0 HERO_WORDS.length).toNat = 0 := by
    rw [getRandomInt_zero]; rfl
  have h2 : wordRotationStart HERO_WORDS 0 (wordRotationStart HERO_WORDS 0 wrInit) =
      { currentIndex := 0, intervalId := some 2,
        timers := { nextId := 3, activeIntervals := [2, 1] },
        elem := some { textContent := "WhatsApp Bot", opacity := "",
                       transition := "opacity 300ms ease" },
        pendingFades := [] } := by
    rw [start_zero_wrInit, start_some HERO_WORDS 0 _
      { textContent := "WhatsApp Bot", opacity := "", transition := "opacity 300ms ease" } rfl, h]
    decide
  rw [h2]
  have h3 : wordRotationStop
      ({ currentIndex := 0, intervalId := some 2,
         timers := { nextId := 3, activeIntervals := [2, 1] },
         elem := some { textContent := "WhatsApp Bot", opacity := "",
                        transition := "opacity 300ms ease" },
         pendingFades := [] } : WRWorld) =
      { currentIndex := 0, intervalId := none,
        timers := { nextId := 3, activeIntervals := [1] },
        elem := some { textContent := "WhatsApp Bot", opacity := "",
                       transition := "opacity 300ms ease" },
        pendingFades := [] } := by decide
  rw [h3]
  have h4 : wordRotationStart HERO_WORDS 0
      ({ currentIndex := 0, intervalId := none,
         timers := { nextId := 3, activeIntervals := [1] },
         elem := some { textContent := "WhatsApp Bot", opacity := "",
                        transition := "opacity 300ms ease" },
         pendingFades := [] } : WRWorld) =
      { currentIndex := 0, intervalId := some 3,
        timers := { nextId := 4, activeIntervals := [3, 1] },
        elem := some { textContent := "WhatsApp Bot", opacity := "",
                       transition := "opacity 300ms ease" },
        pendingFades := [] } := by
    rw [start_some HERO_WORDS 0 _
      { textContent := "WhatsApp Bot", opacity := "", transition := "opacity 300ms ease" } rfl, h]
    decide
  rw [h4]
  refine ⟨?_, ?_, ?_⟩ <;> decide

/-- C3 (amended): from every state whose active recurring timers are all
referenced by the module's `intervalId` — true of every state not produced
by overlapping `start` calls — and with the rotating-word element present,
executing stop, then start, then stop leaves no active recurring timer and
`intervalId` cleared; and `stop` is idempotent on every state whatsoever.
(The original claim quantified over every prior operation sequence; it
fails on sequences containing a double start, which leaks an interval that
the stop-start-stop suffix cannot cancel.) -/
theorem stop_start_stop_no_timer (words : List String) (r : ℚ) (w : WRWorld)
    (helem : w.elem.isSome = true)
    (hinv : ∀ id ∈ w.timers.activeIntervals, w.intervalId = some id) :
    (wordRotationStop (wordRotationStart words r
      (wordRotationStop w))).timers.activeIntervals = [] ∧
    (wordRotationStop (wordRotationStart words r (wordRotationStop w))).intervalId = none ∧
    (∀ v : WRWorld, wordRotationStop (wordRotationStop v) = wordRotationStop v) := by
  obtain ⟨e, he⟩ : ∃ e, (wordRotationStop w).elem = some e := by
    rw [stop_elem_eq]
    exact Option.isSome_iff_exists.mp helem
  have hempty : (wordRotationStop w).timers.activeIntervals = [] := stop_active_empty w hinv
  rw [start_some words r _ e he, hempty]
  generalize (wordRotationStop w).timers.nextId = n
  refine ⟨?_, ?_, fun v => stop_idem v⟩
  · simp [wordRotationStop, clearIntervalT]
  · simp [wordRotationStop]

/-- Witness for C3 from the fresh page world. -/
theorem stop_start_stop_no_timer_witness :
    (wordRotationStop (wordRotationStart HERO_WORDS 0
      (wordRotationStop wrInit))).timers.activeIntervals = [] ∧
    (wordRotationStop (wordRotationStart HERO_WORDS 0
      (wordRotationStop wrInit))).intervalId = none ∧
    (∀ v : WRWorld, wordRotationStop (wordRotationStop v) = wordRotationStop v) :=
  stop_start_stop_no_timer HERO_WORDS 0 wrInit (by decide) (by decide)

/-- `stop` can only cancel the interval referenced by `intervalId`: any
other active handle survives, and `intervalId` never comes to reference it. -/
theorem stop_preserves_nonactive (w : WRWorld) (id : Nat)
    (hmem : id ∈ w.timers.activeIntervals) (hne : w.intervalId ≠ some id) :
    id ∈ (wordRotationStop w).timers.activeIntervals ∧
    (wordRotationStop w).intervalId ≠ some id := by
  cases h : w.intervalId with
  | none =>
      constructor
      · simpa [wordRotationStop, h] using hmem
      · simp [wordRotationStop, h]
  | some j =>
      have hji : id ≠ j := by
        intro hh
        exact hne (by rw [h, hh])
      constructor
      · simp only [wordRotationStop, h, clearIntervalT, List.mem_filter]
        simp [hmem, hji]
      · simp [wordRotationStop, h]

theorem iterate_stop_preserves (id : Nat) :
    ∀ (k : Nat) (w : WRWorld), id ∈ w.timers.activeIntervals → w.intervalId ≠ some id →
      id ∈ (Nat.iterate wordRotationStop k w).timers.activeIntervals := by
  intro k
  induction k with
  | zero => intro w hm _; exact hm
  | succ k ih =>
      intro w hm hne
      have h2 := stop_preserves_nonactive w id hm hne
      rw [Function.iterate_succ_apply]
      exact ih (wordRotationStop w) h2.1 h2.2

/-- C9: calling `start` a second time without an intervening `stop`, with
the element present, overwrites `intervalId` with a new, distinct handle;
the interval created by the first `start` stays active, and no number of
later `stop` calls ever cancels it. -/
theorem double_start_leaks_interval (words : List String) (r1 r2 : ℚ) (w : WRWorld)
    (helem : w.elem.isSome = true) :
    ∃ id1,
      (wordRotationStart words r1 w).intervalId = some id1 ∧
      (wordRotationStart words r2 (wordRotationStart words r1 w)).intervalId = some (id1 + 1) ∧
      id1 + 1 ≠ id1 ∧
      ∀ k : Nat,
        id1 ∈ (Nat.iterate wordRotationStop k
          (wordRotationStart words r2 (wordRotationStart words r1 w))).timers.activeIntervals := by
  obtain ⟨e, he⟩ := Option.isSome_iff_exists.mp helem
  rw [start_some words r1 w e he]
  rw [start_some words r2 _ _ rfl]
  refine ⟨w.timers.nextId, rfl, rfl, by omega, ?_⟩
  intro k
  apply iterate_stop_preserves w.timers.nextId k
  · simp
  · simp

/-- Witness for C9: the interval handle 1 leaked by a double start from
the fresh page world survives two subsequent stops. -/
theorem double_start_leaks_interval_witness :
    1 ∈ (Nat.iterate wordRotationStop 2
      (wordRotationStart HERO_WORDS 0
        (wordRotationStart HERO_WORDS 0 wrInit))).timers.activeIntervals := by
  obtain ⟨id1, h1, -, -, h4⟩ :=
    double_start_leaks_interval HERO_WORDS 0 0 wrInit (by decide)
  have hx : (wordRotationStart HERO_WORDS 0 wrInit).intervalId = some 1 := by
    rw [start_zero_wrInit]
  rw [hx] at h1
  have hid : id1 = 1 := (Option.some.inj h1).symm
  rw [hid] at h4
  exact h4 2

/-- C2: the try/catch sequencing of `initApp`. For arbitrary fallible
steps: if a step throws, the exception is caught (returned as the logged
value, never propagated — `tryCatchSeq` is total), the world reflects
every step that preceded the throwing one (they already ran) plus the
throwing step's own partial effects, and no later step is applied; if no
step throws, the four steps are applied in exactly the order s1, s2, s3,
s4. Instantiated on the concrete world, `initApp` applies
Navigation.init, WordRotation.start, HeroImage.init, preloadImages in
that order and logs nothing. -/
theorem initApp_order_and_error_boundary {W E : Type}
    (s1 s2 s3 s4 : W → Except (E × W) W) (w : W) :
    (∀ e we, s1 w = .error (e, we) → tryCatchSeq s1 s2 s3 s4 w = (we, some e)) ∧
    (∀ w1 e we, s1 w = .ok w1 → s2 w1 = .error (e, we) →
      tryCatchSeq s1 s2 s3 s4 w = (we, some e)) ∧
    (∀ w1 w2 e we, s1 w = .ok w1 → s2 w1 = .ok w2 → s3 w2 = .error (e, we) →
      tryCatchSeq s1 s2 s3 s4 w = (we, some e)) ∧
    (∀ w1 w2 w3 e we, s1 w = .ok w1 → s2 w1 = .ok w2 → s3 w2 = .ok w3 →
      s4 w3 = .error (e, we) → tryCatchSeq s1 s2 s3 s4 w = (we, some e)) ∧
    (∀ w1 w2 w3 w4, s1 w = .ok w1 → s2 w1 = .ok w2 → s3 w2 = .ok w3 → s4 w3 = .ok w4 →
      tryCatchSeq s1 s2 s3 s4 w = (w4, none)) ∧
    (∀ (words : List String) (r1 r2 : ℚ) (aw : AppWorld),
      initApp words r1 r2 aw =
        (preloadImages (heroImageInit r2 (wordRotationStartApp words r1
          (navigationInitApp aw))), none)) := by
  refine ⟨?_, ?_, ?_, ?_, ?_, ?_⟩
  · intro e we h1
    simp [tryCatchSeq, h1]
  · intro w1 e we h1 h2
    simp [tryCatchSeq, h1, h2]
  · intro w1 w2 e we h1 h2 h3
    simp [tryCatchSeq, h1, h2, h3]
  · intro w1 w2 w3 e we h1 h2 h3 h4
    simp [tryCatchSeq, h1, h2, h3, h4]
  · intro w1 w2 w3 w4 h1 h2 h3 h4
    simp [tryCatchSeq, h1, h2, h3, h4]
  · intro words r1 r2 aw
    rfl

/-- Witness for C2: a concrete run over Nat worlds in which the second
step throws; the first step's effect (+1) and the thrower's partial
effect (+10) are both visible in the returned world, the exception is
returned as the logged value, and the remaining steps never run. -/
theorem initApp_order_and_error_boundary_witness :
    tryCatchSeq
      (liftStep (fun n : Nat => n + 1))
      (fun n : Nat => Except.error ((7 : Nat), n + 10))
      (liftStep (fun n : Nat => n + 100))
      (liftStep (fun n : Nat => n + 1000)) 0 = (11, some 7) := by
  have h := (initApp_order_and_error_boundary
      (liftStep (fun n : Nat => n + 1))
      (fun n : Nat => Except.error ((7 : Nat), n + 10))
      (liftStep (fun n : Nat => n + 100))
      (liftStep (fun n : Nat => n + 1000)) 0).2.1
  exact h 1 7 11 rfl rfl

end Exodus
